import Mathlib

/-!
Verification of the auto-healing engine of the Jira Playwright test reporter
(`reporters/jira-reporter.js`).

The engine's pure computations (failure classification, strategy selection,
textual patch transformations, summary arithmetic) are embedded directly as
Lean functions on `String` (modelled at the kernel level as `List Char`).
Effectful steps (the `exec` callbacks, `JSON.parse`, file system reads and
writes) are modelled by passing their externally determined outcomes as
explicit arguments, branch for branch as the source handles them.

JavaScript string primitives used by the source are modelled as:
  * `String.prototype.includes`  → `jsIncludes` (substring test);
  * `String.prototype.replace` with a `/g` literal pattern → `jsReplaceAll`
    (leftmost, non-overlapping, replacement text never rescanned);
  * the specific capture-group regexes of the patch functions → bespoke
    scanners (`replaceQuotedCall`, `replaceAwaitClick`) that reproduce the
    greedy-match semantics of each concrete pattern;
  * `x || d` on strings/numbers → `jsOrStr` / `jsOrNat` (falsy = `""` / `0`);
  * the success-rate computation `(healed / N) * 100` → exact binary64
    arithmetic: each of the two operations is correctly rounded to the
    nearest IEEE-754 double (`flPair`, ties to even), represented as an
    exact fraction — integer operands of these magnitudes are themselves
    exact;
  * `Math.round` → `jsRound`, round half toward positive infinity applied
    to the exact value of its (double) argument, as the ECMAScript
    specification defines it.
-/

/-- Substring test on character lists: does `pat` occur contiguously in `s`? -/
def containsSub (pat : List Char) : List Char → Bool
  | [] => pat.isEmpty
  | c :: rest => pat.isPrefixOf (c :: rest) || containsSub pat rest

/-- JS `haystack.includes(needle)`: substring test. -/
def jsIncludes (s pat : String) : Bool :=
  containsSub pat.data s.data

/-- One pass of JS `String.prototype.replace(/lit/g, repl)` over a character
list: leftmost match, the replacement is emitted and scanning resumes after
the matched segment (the replacement text is never rescanned).  Structural
recursion on a fuel bound (any fuel at least the list length is exact; on
exhaustion the remaining input is returned unchanged). -/
def replaceListF (pat repl : List Char) : Nat → List Char → List Char
  | _, [] => []
  | 0, s => s
  | fuel + 1, c :: rest =>
    if pat ≠ [] ∧ pat.isPrefixOf (c :: rest) then
      repl ++ replaceListF pat repl fuel ((c :: rest).drop pat.length)
    else
      c :: replaceListF pat repl fuel rest

/-- `replaceListF` with exact fuel. -/
def replaceList (pat repl : List Char) (s : List Char) : List Char :=
  replaceListF pat repl s.length s

/-- JS `s.replace(/pat/g, repl)` for a literal (capture-free) pattern. -/
def jsReplaceAll (s pat repl : String) : String :=
  String.mk (replaceList pat.data repl.data s.data)

/-- Matcher for the pattern `pre ++ "('" ++ X ++ "')"`-shaped regexes
(`getByText\('([^']+)'\)`, `page\.locator\('([^']+)'\)`,
`page\.goto\('([^']+)'\)`): at the head of `s`, after the literal `pre`
(which ends in an opening quote), a non-empty run of non-quote characters
must be followed by a quote and a closing parenthesis.  Returns the capture. -/
def matchQuotedCall (pre s : List Char) : Option (List Char) :=
  if pre.isPrefixOf s then
    let t := s.drop pre.length
    let cap := t.takeWhile (fun c => c ≠ Char.ofNat 39)
    if 1 ≤ cap.length ∧ [Char.ofNat 39, ')'].isPrefixOf (t.drop cap.length) then
      some cap
    else none
  else none

/-- Global replace for the quoted-call regexes: each match `pre ++ cap ++ "')"`
is rewritten to `pre ++ cap ++ suf`, and scanning resumes after the match.
Structural recursion on a fuel bound, exact at the list length. -/
def replaceQuotedCallF (pre suf : List Char) : Nat → List Char → List Char
  | _, [] => []
  | 0, s => s
  | fuel + 1, c :: rest =>
    match matchQuotedCall pre (c :: rest) with
    | some cap =>
      pre ++ cap ++ suf ++
        replaceQuotedCallF pre suf fuel ((c :: rest).drop (pre.length + cap.length + 2))
    | none => c :: replaceQuotedCallF pre suf fuel rest

/-- `replaceQuotedCallF` with exact fuel. -/
def replaceQuotedCall (pre suf : List Char) (s : List Char) : List Char :=
  replaceQuotedCallF pre suf s.length s

/-- The literal `.click()` of the element-fix regex. -/
def clickLit : List Char := ".click()".data

/-- Greedy backtracking search of `/[^;]+\.click\(\)/`: starting from the
longest candidate length `j` (the full non-`;` run) and shrinking, find the
largest `j ≥ 1` at which `.click()` follows `t.take j`. -/
def searchClick (t : List Char) : Nat → Option Nat
  | 0 => none
  | j + 1 => if clickLit.isPrefixOf (t.drop (j + 1)) then some (j + 1) else searchClick t j

/-- Matcher for `/await (page\.[^;]+\.click\(\))/` at the head of `s`:
returns the capture group (`page.` ++ run ++ `.click()`) and the run length
`j`; the full match spans `11 + j + 8` characters (`await page.`, the run,
`.click()`). -/
def matchAwaitClick (s : List Char) : Option (List Char × Nat) :=
  if ("await page.".data).isPrefixOf s then
    let t := s.drop 11
    let m := (t.takeWhile (fun c => c ≠ ';')).length
    match searchClick t m with
    | some j => some ("page.".data ++ t.take j ++ clickLit, j)
    | none => none
  else none

/-- Global replace for `/await (page\.[^;]+\.click\(\))/g` with replacement
`await $1.waitFor(\x7b state: "visible" \x7d);\n    await $1`.  Structural
recursion on a fuel bound, exact at the list length. -/
def replaceAwaitClickF : Nat → List Char → List Char
  | _, [] => []
  | 0, s => s
  | fuel + 1, c :: rest =>
    match matchAwaitClick (c :: rest) with
    | some (grp, j) =>
      "await ".data ++ grp ++ (".waitFor(\x7b state: \"visible\" \x7d);\n    await ").data ++ grp ++
        replaceAwaitClickF fuel ((c :: rest).drop (11 + j + 8))
    | none => c :: replaceAwaitClickF fuel rest

/-- `replaceAwaitClickF` with exact fuel. -/
def replaceAwaitClick (s : List Char) : List Char :=
  replaceAwaitClickF s.length s

/-- JS `v || d` for an optional string value: `undefined` and `""` are falsy. -/
def jsOrStr (v : Option String) (d : String) : String :=
  match v with
  | none => d
  | some s => if s = "" then d else s

/-- JS `v || d` for an optional number value: `undefined` and `0` are falsy. -/
def jsOrNat (v : Option Nat) (d : Nat) : Nat :=
  match v with
  | none => d
  | some n => if n = 0 then d else n

/-- JS `v === lit` for an optional string against a string literal
(`undefined === lit` is `false`). -/
def jsStrictEq (v : Option String) (lit : String) : Bool :=
  match v with
  | none => false
  | some s => s = lit

/-- JS `Math.round` on the exact value of its argument: the integer closest
to `q`, halves toward positive infinity — that is, `⌊q + 1/2⌋`, computed
here as a floor division so that it evaluates by kernel reduction
(`jsRound_eq_round_half` below states the floor form). -/
def jsRound (q : ℚ) : ℤ := (2 * q.num + (q.den : ℤ)).fdiv (2 * (q.den : ℤ))

/-- Exponent search for binary64 rounding: the number of doublings of the
numerator needed to bring `n / d` into the mantissa window `[2^52, 2^53)`. -/
def flScaleUp (n d : Nat) : Nat → Nat → Nat
  | 0, s => s
  | fuel + 1, s => if n * 2 ^ s < 2 ^ 52 * d then flScaleUp n d fuel (s + 1) else s

/-- Exponent search for binary64 rounding: the number of doublings of the
denominator needed to bring `n / d` into the mantissa window `[2^52, 2^53)`. -/
def flScaleDown (n d : Nat) : Nat → Nat → Nat
  | 0, t => t
  | fuel + 1, t => if 2 ^ 53 * (d * 2 ^ t) ≤ n then flScaleDown n d fuel (t + 1) else t

/-- The IEEE-754 binary64 (double) value nearest to `n / d` (ties to even),
as an exact fraction `(numerator, denominator)`: scale `n / d` by a power
of two into the mantissa window `[2^52, 2^53)`, round to the nearest
integer mantissa (ties to even), and scale back — the result is
`m * 2^t / 2^s` with at most one of `s`, `t` non-zero.  Normal range
only — the healing-rate values are far from the overflow and subnormal
thresholds, whose clamping is therefore not modelled. -/
def flPair (n d : Nat) : Nat × Nat :=
  if n = 0 ∨ d = 0 then (0, 1)
  else
    let s := if n < 2 ^ 52 * d then flScaleUp n d 1200 0 else 0
    let t := if n < 2 ^ 52 * d then 0 else flScaleDown n d 1200 0
    let bigN := n * 2 ^ s
    let bigD := d * 2 ^ t
    let quot := bigN / bigD
    let rem := bigN % bigD
    let m := if 2 * rem < bigD then quot
             else if bigD < 2 * rem then quot + 1
             else if quot % 2 = 0 then quot else quot + 1
    (m * 2 ^ t, 2 ^ s)

/-- A failed-test record as pushed by `onTestEnd`
(jira-reporter.js 58–67, 73–76): the fields the healing engine reads. -/
structure FailedTest where
  testId : String
  title : String
  project : String := "unknown"
  status : String := "failed"
  duration : Nat := 0
  error : Option String := none
  file : String := ""
deriving DecidableEq, Repr

/-- A fix strategy as built by `analyzeFailureAndCreateStrategy`
(jira-reporter.js 290–345). -/
structure Strategy where
  type : String
  fixes : List String
  reason : String
deriving DecidableEq, Repr

/-- The resolved value of `runPlaywrightDebug` (jira-reporter.js 275–281). -/
structure DebugResult where
  success : Bool
  stdout : String
  stderr : String
  log : String
  error : Option String
deriving DecidableEq, Repr

/-- The resolved value of `rerunSingleTest` (jira-reporter.js 474–487). -/
structure RerunOutcome where
  status : String
  duration : Nat
  error : Option String
  success : Bool
deriving DecidableEq, Repr

/-- A healing result.  The success path of `healSingleTest`
(jira-reporter.js 254–263) populates `originalError`, `fixStrategy`,
`appliedFixes`, `rerunResult` and `healingLog`; the catch path of
`autoHealFailedTests` (jira-reporter.js 220–226) instead populates `error`
and `changes`.  Fields absent on a path keep their `none`/default value. -/
structure HealingResult where
  testId : String
  success : Bool
  finalStatus : String
  originalError : Option String := none
  fixStrategy : Option Strategy := none
  appliedFixes : List String := []
  rerunResult : Option RerunOutcome := none
  healingLog : Option String := none
  error : Option String := none
  changes : Option (List String) := none
deriving DecidableEq, Repr

/-- The outcome of a `child_process.exec` invocation, as delivered to its
callback: `error` is `some` on abnormal exit or enforced timeout, and the
captured standard streams are always present (possibly empty). -/
structure ExecOutcome where
  error : Option String
  stdout : String
  stderr : String
deriving DecidableEq, Repr

/-- `error.message` of a result entry in Playwright's JSON report. -/
structure PwError where
  message : Option String := none
deriving DecidableEq, Repr

/-- A result entry in Playwright's JSON report (every field may be absent). -/
structure PwResult where
  status : Option String := none
  duration : Option Nat := none
  error : Option PwError := none
deriving DecidableEq, Repr

/-- A test entry in Playwright's JSON report. -/
structure PwTest where
  results : Option (List PwResult) := none
deriving DecidableEq, Repr

/-- A spec entry in Playwright's JSON report. -/
structure PwSpec where
  tests : Option (List PwTest) := none
deriving DecidableEq, Repr

/-- A suite entry in Playwright's JSON report. -/
structure PwSuite where
  specs : Option (List PwSpec) := none
deriving DecidableEq, Repr

/-- The top level of Playwright's JSON report. -/
structure PwDoc where
  suites : Option (List PwSuite) := none
deriving DecidableEq, Repr

/-- The numeric content of the healing report built by
`generateHealingSummary` (jira-reporter.js 532–545): the four values
interpolated into the report header.  The textual rendering around them is
presentation and is not modelled. -/
structure HealingSummary where
  healed : Nat
  stillFailing : Nat
  totalAttempts : Nat
  successRate : ℤ
deriving DecidableEq, Repr

/-- The timeout strategy literal (jira-reporter.js 298–307). -/
def timeoutStrategy : Strategy :=
  { type := "timeout"
    fixes := ["increase_timeout", "add_wait_conditions", "optimize_selectors"]
    reason := "Test is timing out - likely due to slow loading or incorrect wait conditions" }

/-- The selector strategy literal (jira-reporter.js 310–318). -/
def selectorStrategy : Strategy :=
  { type := "selector"
    fixes := ["add_exact_matching", "improve_selector_specificity", "add_unique_locators"]
    reason := "Multiple elements match selector - need more specific locators" }

/-- The element-missing strategy literal (jira-reporter.js 322–330). -/
def elementMissingStrategy : Strategy :=
  { type := "element_missing"
    fixes := ["update_selectors", "add_wait_for_element", "check_page_structure"]
    reason := "Element selectors need updating - page structure may have changed" }

/-- The navigation strategy literal (jira-reporter.js 334–342). -/
def navigationStrategy : Strategy :=
  { type := "navigation"
    fixes := ["add_retry_logic", "increase_navigation_timeout", "add_network_conditions"]
    reason := "Navigation issues - network or page loading problems" }

/-- The default strategy literal (jira-reporter.js 290–294): note the empty
fix list. -/
def unknownStrategy : Strategy :=
  { type := "unknown"
    fixes := []
    reason := "Unable to determine failure cause" }

/-- `analyzeFailureAndCreateStrategy` (jira-reporter.js 286–346): an if/else
chain of substring checks over `failedTest.error || ''`.  The source also
binds `log = debugResult.log || ''` but never reads it; the binding is kept
here as `_log`. -/
def analyzeFailureAndCreateStrategy (failedTest : FailedTest) (debugResult : DebugResult) :
    Strategy :=
  let error := jsOrStr failedTest.error ""
  let _log := jsOrStr (some debugResult.log) ""
  if jsIncludes error "Test timeout" || jsIncludes error "30000ms exceeded" then
    timeoutStrategy
  else if jsIncludes error "strict mode violation" || jsIncludes error "multiple elements" then
    selectorStrategy
  else if jsIncludes error "Element not found" || jsIncludes error "not visible" then
    elementMissingStrategy
  else if jsIncludes error "page.goto" || jsIncludes error "navigation" then
    navigationStrategy
  else
    unknownStrategy

/-- `applyTimeoutFixes` (jira-reporter.js 396–412): when `test.setTimeout`
is absent, prefix every occurrence of `test(` with the timeout directive;
then a self-replacement of `await page.goto(` (a no-op kept from the
source). -/
def applyTimeoutFixes (content : String) : String :=
  let content1 :=
    if !(jsIncludes content "test.setTimeout") then
      jsReplaceAll content "test(" "test.setTimeout(60000);\n  test("
    else content
  jsReplaceAll content1 "await page.goto(" "await page.goto("

/-- `applySelectorFixes` (jira-reporter.js 414–428): rewrite
`getByText('X')` to `getByText('X', \x7b exact: true \x7d)`, then rewrite
`page.locator('X')` to `page.locator('X').first()`. -/
def applySelectorFixes (content : String) : String :=
  let content1 :=
    String.mk (replaceQuotedCall ("getByText('").data ("', \x7b exact: true \x7d)").data content.data)
  String.mk (replaceQuotedCall ("page.locator('").data ("').first()").data content1.data)

/-- `applyElementFixes` (jira-reporter.js 430–438): before each
`await page.….click()`, inject a visibility wait on the same expression. -/
def applyElementFixes (content : String) : String :=
  String.mk (replaceAwaitClick content.data)

/-- `applyNavigationFixes` (jira-reporter.js 440–448): rewrite
`page.goto('X')` to
`page.goto('X', \x7b waitUntil: 'load', timeout: 60000 \x7d)`. -/
def applyNavigationFixes (content : String) : String :=
  String.mk (replaceQuotedCall ("page.goto('").data
    ("', \x7b waitUntil: 'load', timeout: 60000 \x7d)").data content.data)

/-- `applyGeneralFixes` (jira-reporter.js 450–460): when `test.slow()` is
absent, prefix every occurrence of `test(` with `test.slow();`. -/
def applyGeneralFixes (content : String) : String :=
  if !(jsIncludes content "test.slow()") then
    jsReplaceAll content "test(" "test.slow();\n  test("
  else content

/-- `applyTestFixes` (jira-reporter.js 348–394).  The file system is
external: `readResult` is the outcome of `fs.readFileSync` and `writeError`
is `some` when `fs.writeFileSync` throws.  Returns the `appliedFixes`
descriptions and, when the write succeeded, the content written back.  A
read failure skips the switch entirely; a write failure happens after the
description was pushed; either failure appends the catch-clause message. -/
def applyTestFixes (strategy : Strategy) (readResult : Except String String)
    (writeError : Option String) : List String × Option String :=
  match readResult with
  | .error e => (["Error applying fixes: " ++ e], none)
  | .ok testContent =>
    let step : String × String :=
      match strategy.type with
      | "timeout" => (applyTimeoutFixes testContent,
          "Added timeout configurations and wait conditions")
      | "selector" => (applySelectorFixes testContent,
          "Improved selector specificity and exact matching")
      | "element_missing" => (applyElementFixes testContent,
          "Updated selectors and added element wait conditions")
      | "navigation" => (applyNavigationFixes testContent,
          "Enhanced navigation reliability and timeouts")
      | _ => (applyGeneralFixes testContent,
          "Added general test resilience improvements")
    match writeError with
    | some e => ([step.2, "Error applying fixes: " ++ e], none)
    | none => ([step.2], some step.1)

/-- `runPlaywrightDebug` (jira-reporter.js 266–284): the exec callback
unconditionally resolves with this record. -/
def runPlaywrightDebug (execResult : ExecOutcome) : DebugResult :=
  { success := execResult.error.isNone
    stdout := execResult.stdout
    stderr := execResult.stderr
    log := execResult.stdout ++ "\n" ++ execResult.stderr
    error := execResult.error }

/-- The body of `runPlaywrightDebug`'s callback with a possible-exception
result type: the callback contains no throwing operation, so it always
resolves. -/
def runPlaywrightDebugE (execResult : ExecOutcome) : Except String DebugResult :=
  .ok (runPlaywrightDebug execResult)

/-- The resolve value built from a successfully parsed Playwright JSON
document (jira-reporter.js 471–479), with JS optional chaining modelled by
`Option.bind` and `[0]` by `List.head?`. -/
def rerunExtract (execResult : ExecOutcome) (jsonOutput : PwDoc) : RerunOutcome :=
  let testResult : Option PwTest :=
    ((((jsonOutput.suites.bind List.head?).bind PwSuite.specs).bind
        List.head?).bind PwSpec.tests).bind List.head?
  let res0 : Option PwResult := (testResult.bind PwTest.results).bind List.head?
  { status := jsOrStr (res0.bind PwResult.status) "unknown"
    duration := jsOrNat (res0.bind PwResult.duration) 0
    error := (res0.bind PwResult.error).bind PwError.message
    success := execResult.error.isNone && jsStrictEq (res0.bind PwResult.status) "passed" }

/-- The resolve value of the catch clause of `rerunSingleTest`
(jira-reporter.js 480–487). -/
def rerunParseFallback (parseMessage : String) : RerunOutcome :=
  { status := "failed"
    duration := 0
    error := some ("Failed to parse test results: " ++ parseMessage)
    success := false }

/-- `rerunSingleTest` (jira-reporter.js 462–490).  `JSON.parse(stdout)` is
external; its outcome is the `parsed` argument (`.error` = the parse
exception's message).  A parse failure takes the catch clause. -/
def rerunSingleTest (execResult : ExecOutcome) (parsed : Except String PwDoc) : RerunOutcome :=
  match parsed with
  | .ok jsonOutput => rerunExtract execResult jsonOutput
  | .error parseMessage => rerunParseFallback parseMessage

/-- The try block of `rerunSingleTest`'s callback as a possibly-throwing
computation: the `JSON.parse` exception propagates out of the `do` block. -/
def rerunTryBody (execResult : ExecOutcome) (parsed : Except String PwDoc) :
    Except String RerunOutcome := do
  let jsonOutput ← parsed
  pure (rerunExtract execResult jsonOutput)

/-- `rerunSingleTest`'s callback with a possible-exception result type: the
try/catch converts the only throwing operation (`JSON.parse`) into a
resolved fallback value, so the callback always resolves. -/
def rerunSingleTestE (execResult : ExecOutcome) (parsed : Except String PwDoc) :
    Except String RerunOutcome :=
  match rerunTryBody execResult parsed with
  | .ok o => .ok o
  | .error parseMessage => .ok (rerunParseFallback parseMessage)

/-- `healSingleTest` (jira-reporter.js 236–264).  The effectful steps are
supplied as arguments: `debugResult` is the resolved value of
`runPlaywrightDebug`, `readResult`/`writeError` the file-system outcomes
inside `applyTestFixes`, and `rerunResult` the resolved value of
`rerunSingleTest`. -/
def healSingleTest (failedTest : FailedTest) (debugResult : DebugResult)
    (readResult : Except String String) (writeError : Option String)
    (rerunResult : RerunOutcome) : HealingResult :=
  let fixStrategy := analyzeFailureAndCreateStrategy failedTest debugResult
  let appliedFixes := (applyTestFixes fixStrategy readResult writeError).1
  { testId := failedTest.testId
    originalError := failedTest.error
    fixStrategy := some fixStrategy
    appliedFixes := appliedFixes
    rerunResult := some rerunResult
    success := rerunResult.status == "passed"
    finalStatus := rerunResult.status
    healingLog := some debugResult.log }

/-- The loop body of `autoHealFailedTests` (jira-reporter.js 209–228): the
try/catch around one test.  `heal` is the (possibly throwing) per-test
healing computation; on a throw the catch clause builds the error record of
lines 220–226. -/
def healOne (heal : FailedTest → Except String HealingResult)
    (failedTest : FailedTest) : HealingResult :=
  match heal failedTest with
  | .ok r => r
  | .error msg =>
    { testId := failedTest.testId
      success := false
      error := some msg
      changes := some []
      finalStatus := "failed" }

/-- `autoHealFailedTests` (jira-reporter.js 206–234): the sequential loop
over the failed tests, pushing exactly one result per iteration (the healed
result, or the catch-clause error record). -/
def autoHealFailedTests (heal : FailedTest → Except String HealingResult) :
    List FailedTest → List HealingResult
  | [] => []
  | failedTest :: rest =>
    (match heal failedTest with
     | .ok r => r
     | .error msg =>
       { testId := failedTest.testId
         success := false
         error := some msg
         changes := some []
         finalStatus := "failed" }) :: autoHealFailedTests heal rest

/-- The numeric core of `generateHealingSummary` (jira-reporter.js
532–542): `healed` and `failed` counts and the rounded success rate, as
interpolated into the report text.  The rate
`Math.round((healed / healingResults.length) * 100)` is computed by the
source in binary64 doubles: the division and the multiplication are each
correctly rounded (`flPair`), then `Math.round` is applied to the exact
value of the resulting double.  (For an empty list the source produces
NaN; the embedding yields `round(0)` there — the specified properties
concern non-empty batches only.) -/
def generateHealingSummary (healingResults : List HealingResult) : HealingSummary :=
  let healed := (healingResults.filter (fun r => r.success)).length
  let failed := healingResults.length - healed
  { healed := healed
    stillFailing := failed
    totalAttempts := healingResults.length
    successRate :=
      let d1 := flPair healed healingResults.length
      let d2 := flPair (100 * d1.1) d1.2
      jsRound (Rat.divInt d2.1 d2.2) }

/-- The spec's failure-category enumeration (spec §3). -/
inductive FailureCategory where
  | timeout
  | selectorAmbiguity
  | elementMissing
  | navigationFailure
  | unknown
deriving DecidableEq, Repr

/-- Modelled from the spec's words (§4.1): the ordered (patterns, category)
rules, evaluated in the fixed priority order Timeout → SelectorAmbiguity →
ElementMissing → NavigationFailure. -/
def classifierRules : List (List String × FailureCategory) :=
  [(["Test timeout", "30000ms exceeded"], .timeout),
   (["strict mode violation", "multiple elements"], .selectorAmbiguity),
   (["Element not found", "not visible"], .elementMissing),
   (["page.goto", "navigation"], .navigationFailure)]

/-- Modelled from the spec's words (§4.1): return the category of the first
rule one of whose patterns occurs as a substring of the message; `Unknown`
when no rule matches or the message is absent. -/
def classifySpec (errorMessage : Option String) : FailureCategory :=
  match errorMessage with
  | none => .unknown
  | some m =>
    match classifierRules.find? (fun rule => rule.1.any (fun p => jsIncludes m p)) with
    | some rule => rule.2
    | none => .unknown

/-- The strategy catalog (spec §4.2) with the strategy literals of
`analyzeFailureAndCreateStrategy`. -/
def strategyFor : FailureCategory → Strategy
  | .timeout => timeoutStrategy
  | .selectorAmbiguity => selectorStrategy
  | .elementMissing => elementMissingStrategy
  | .navigationFailure => navigationStrategy
  | .unknown => unknownStrategy

/-- `containsSub` decides list containment (`List.IsInfix`). -/
theorem containsSub_iff (pat s : List Char) : containsSub pat s = true ↔ pat <:+: s := by
  induction s with
  | nil =>
    simp [containsSub, List.isEmpty_iff]
  | cons c rest ih =>
    simp only [containsSub, Bool.or_eq_true, List.isPrefixOf_iff_prefix, ih,
      List.infix_cons_iff]

/-- Replacing a pattern by itself is the identity, at any sufficient fuel. -/
theorem replaceListF_self (pat : List Char) :
    ∀ fuel s, s.length ≤ fuel → replaceListF pat pat fuel s = s := by
  intro fuel
  induction fuel with
  | zero =>
    intro s hs
    match s with
    | [] => rfl
    | c :: rest => rfl
  | succ fuel ih =>
    intro s hs
    match s with
    | [] => rfl
    | c :: rest =>
      rw [replaceListF]
      split
      · rename_i h
        obtain ⟨t, ht⟩ := (List.isPrefixOf_iff_prefix.mp h.2)
        have hdrop : (c :: rest).drop pat.length = t := by
          rw [← ht, List.drop_left]
        have hpos : 0 < pat.length := List.length_pos.mpr h.1
        have hle : t.length ≤ fuel := by
          have hlen : pat.length + t.length = rest.length + 1 := by
            rw [← List.length_append, ht, List.length_cons]
          simp only [List.length_cons] at hs
          omega
        rw [hdrop, ih t hle]
        exact ht
      · have hle : rest.length ≤ fuel := by
          simp only [List.length_cons] at hs
          omega
        rw [ih rest hle]

/-- Replacing a pattern by itself is the identity. -/
theorem replaceList_self (pat : List Char) : ∀ s, replaceList pat pat s = s := by
  intro s
  exact replaceListF_self pat s.length s le_rfl

/-- After a global replace the string is unchanged, or the replacement text
occurs in the result (at any fuel). -/
theorem replaceListF_eq_or_infix (pat repl : List Char) :
    ∀ fuel s, replaceListF pat repl fuel s = s ∨ repl <:+: replaceListF pat repl fuel s := by
  intro fuel
  induction fuel with
  | zero =>
    intro s
    match s with
    | [] => left; rfl
    | c :: rest => left; rfl
  | succ fuel ih =>
    intro s
    match s with
    | [] => left; rfl
    | c :: rest =>
      rw [replaceListF]
      split
      · right
        exact ⟨[], replaceListF pat repl fuel ((c :: rest).drop pat.length), by simp⟩
      · rcases ih rest with h | h
        · left; rw [h]
        · right
          obtain ⟨u, v, huv⟩ := h
          exact ⟨c :: u, v, by simp [← huv]⟩

/-- After a global replace the string is unchanged, or the replacement text
occurs in the result. -/
theorem replaceList_eq_or_infix (pat repl : List Char) :
    ∀ s, replaceList pat repl s = s ∨ repl <:+: replaceList pat repl s := by
  intro s
  exact replaceListF_eq_or_infix pat repl s.length s

/-- `jsReplaceAll` with identical pattern and replacement is the identity. -/
theorem jsReplaceAll_self (s pat : String) : jsReplaceAll s pat pat = s := by
  unfold jsReplaceAll
  rw [replaceList_self]

/-- When the timeout directive is already present, `applyTimeoutFixes`
returns the content unchanged. -/
theorem applyTimeoutFixes_of_present (c : String)
    (h : jsIncludes c "test.setTimeout" = true) : applyTimeoutFixes c = c := by
  simp only [applyTimeoutFixes, h, Bool.not_true, Bool.false_eq_true, if_false,
    jsReplaceAll_self]

/-- When `test.slow()` is already present, `applyGeneralFixes` returns the
content unchanged. -/
theorem applyGeneralFixes_of_present (c : String)
    (h : jsIncludes c "test.slow()" = true) : applyGeneralFixes c = c := by
  simp only [applyGeneralFixes, h, Bool.not_true, Bool.false_eq_true, if_false]

/-- `applyTimeoutFixes` is idempotent: its injection is guarded by a
presence check, and the injected text itself contains the guard substring. -/
theorem applyTimeoutFixes_idem (c : String) :
    applyTimeoutFixes (applyTimeoutFixes c) = applyTimeoutFixes c := by
  by_cases h : jsIncludes c "test.setTimeout" = true
  · rw [applyTimeoutFixes_of_present c h, applyTimeoutFixes_of_present c h]
  · rw [Bool.not_eq_true] at h
    have happ : applyTimeoutFixes c =
        String.mk (replaceList ("test(").data
          ("test.setTimeout(60000);\n  test(").data c.data) := by
      simp only [applyTimeoutFixes, h, Bool.not_false, if_true, jsReplaceAll_self]
      rfl
    rcases replaceList_eq_or_infix ("test(").data
        ("test.setTimeout(60000);\n  test(").data c.data with he | hi
    · have hc : applyTimeoutFixes c = c := by
        rw [happ, he]
      rw [hc]
      exact hc
    · have hsub : ("test.setTimeout").data <:+:
          ("test.setTimeout(60000);\n  test(").data :=
        (containsSub_iff _ _).mp (by decide)
      have hinc : jsIncludes (applyTimeoutFixes c) "test.setTimeout" = true := by
        rw [happ]
        exact (containsSub_iff _ _).mpr (hsub.trans hi)
      exact applyTimeoutFixes_of_present _ hinc

/-- `applyGeneralFixes` is idempotent, by the same guard argument. -/
theorem applyGeneralFixes_idem (c : String) :
    applyGeneralFixes (applyGeneralFixes c) = applyGeneralFixes c := by
  by_cases h : jsIncludes c "test.slow()" = true
  · rw [applyGeneralFixes_of_present c h, applyGeneralFixes_of_present c h]
  · rw [Bool.not_eq_true] at h
    have happ : applyGeneralFixes c =
        String.mk (replaceList ("test(").data ("test.slow();\n  test(").data c.data) := by
      simp only [applyGeneralFixes, h, Bool.not_false, if_true]
      rfl
    rcases replaceList_eq_or_infix ("test(").data
        ("test.slow();\n  test(").data c.data with he | hi
    · have hc : applyGeneralFixes c = c := by
        rw [happ, he]
      rw [hc]
      exact hc
    · have hsub : ("test.slow()").data <:+: ("test.slow();\n  test(").data :=
        (containsSub_iff _ _).mp (by decide)
      have hinc : jsIncludes (applyGeneralFixes c) "test.slow()" = true := by
        rw [happ]
        exact (containsSub_iff _ _).mpr (hsub.trans hi)
      exact applyGeneralFixes_of_present _ hinc

/-- `analyzeFailureAndCreateStrategy` agrees with the ordered-rules
classifier followed by the catalog lookup, for every record and every debug
result. -/
theorem analyze_eq_catalog (failedTest : FailedTest) (debugResult : DebugResult) :
    analyzeFailureAndCreateStrategy failedTest debugResult =
      strategyFor (classifySpec failedTest.error) := by
  cases hE : failedTest.error with
  | none =>
    simp [analyzeFailureAndCreateStrategy, hE, jsOrStr, classifySpec, strategyFor]
    decide
  | some m =>
    by_cases hm : m = ""
    · subst hm
      simp [analyzeFailureAndCreateStrategy, hE, jsOrStr, classifySpec, strategyFor]
      decide
    · simp only [analyzeFailureAndCreateStrategy, hE, jsOrStr, if_neg hm, classifySpec,
        classifierRules, List.find?, List.any, Bool.or_false, strategyFor]
      by_cases h1 : (jsIncludes m "Test timeout" || jsIncludes m "30000ms exceeded") = true
      · simp [h1]
      · rw [Bool.not_eq_true] at h1
        by_cases h2 : (jsIncludes m "strict mode violation" ||
            jsIncludes m "multiple elements") = true
        · simp [h1, h2]
        · rw [Bool.not_eq_true] at h2
          by_cases h3 : (jsIncludes m "Element not found" || jsIncludes m "not visible") = true
          · simp [h1, h2, h3]
          · rw [Bool.not_eq_true] at h3
            by_cases h4 : (jsIncludes m "page.goto" || jsIncludes m "navigation") = true
            · simp [h1, h2, h3, h4]
            · rw [Bool.not_eq_true] at h4
              simp [h1, h2, h3, h4]

/-- C1: every failed-test record processed by `autoHealFailedTests` yields
exactly one `HealingResult`, in order (the output is the elementwise image
of the input under the loop body `healOne`, so its length equals the
input's and each record's outcome is independent of the others); when
healing a record throws, the error is captured as a result with
`success = false` carrying the thrown message, and later records are still
processed. -/
theorem autoHeal_exactly_one_result_per_record
    (heal : FailedTest → Except String HealingResult) (fts : List FailedTest) :
    autoHealFailedTests heal fts = fts.map (healOne heal) ∧
    (autoHealFailedTests heal fts).length = fts.length ∧
    ∀ ft msg, heal ft = .error msg →
      (healOne heal ft).testId = ft.testId ∧
      (healOne heal ft).success = false ∧
      (healOne heal ft).error = some msg := by
  have hmap : autoHealFailedTests heal fts = fts.map (healOne heal) := by
    induction fts with
    | nil => rfl
    | cons ft rest ih =>
      cases h : heal ft with
      | ok r => simp [autoHealFailedTests, healOne, h, ih]
      | error msg => simp [autoHealFailedTests, healOne, h, ih]
  refine ⟨hmap, by rw [hmap]; simp, ?_⟩
  intro ft msg h
  simp [healOne, h]

/-- Witness for C1 at a concrete throwing healer and record. -/
theorem autoHeal_exactly_one_result_per_record_witness :
    (fun _ : FailedTest => (Except.error "boom" : Except String HealingResult))
        ({ testId := "VAL-009", title := "t" } : FailedTest) = Except.error "boom" ∧
    (healOne (fun _ => Except.error "boom")
        ({ testId := "VAL-009", title := "t" } : FailedTest)).testId = "VAL-009" ∧
    (healOne (fun _ => Except.error "boom")
        ({ testId := "VAL-009", title := "t" } : FailedTest)).success = false ∧
    (healOne (fun _ => Except.error "boom")
        ({ testId := "VAL-009", title := "t" } : FailedTest)).error = some "boom" := by
  have h := (autoHeal_exactly_one_result_per_record (fun _ => Except.error "boom")
      [{ testId := "VAL-009", title := "t" }]).2.2
      { testId := "VAL-009", title := "t" } "boom" rfl
  exact ⟨rfl, h.1, h.2.1, h.2.2⟩

/-- C2: for every record and debug result, the classification performed by
`analyzeFailureAndCreateStrategy` equals evaluating the ordered rules
Timeout → SelectorAmbiguity → ElementMissing → NavigationFailure, taking
the category of the first rule one of whose patterns occurs as a substring
of the error message, and `Unknown` when no pattern matches or the message
is absent — followed by the catalog lookup. -/
theorem classification_ordered_first_match (ft : FailedTest) (dbg : DebugResult) :
    analyzeFailureAndCreateStrategy ft dbg = strategyFor (classifySpec ft.error) :=
  analyze_eq_catalog ft dbg

/-- C3: a healing result's `success` is `true` exactly when the
reverification outcome's status is the string `passed`; in particular a
reverification whose JSON output failed to parse never yields
`success = true`. -/
theorem healing_success_iff_rerun_passed (ft : FailedTest) (dbg : DebugResult)
    (readRes : Except String String) (wErr : Option String)
    (execResult : ExecOutcome) (parsed : Except String PwDoc) :
    ((healSingleTest ft dbg readRes wErr (rerunSingleTest execResult parsed)).success = true ↔
      (rerunSingleTest execResult parsed).status = "passed") ∧
    (∀ m, parsed = Except.error m →
      (healSingleTest ft dbg readRes wErr (rerunSingleTest execResult parsed)).success
        = false) := by
  constructor
  · simp [healSingleTest]
  · intro m hm
    subst hm
    simp [healSingleTest, rerunSingleTest, rerunParseFallback]

/-- Witness for C3 at a concrete parse failure. -/
theorem healing_success_iff_rerun_passed_witness :
    (healSingleTest ({ testId := "VAL-003", title := "t" } : FailedTest)
        (runPlaywrightDebug { error := some "exit 1", stdout := "", stderr := "" })
        (Except.ok "test(x)") none
        (rerunSingleTest { error := some "exit 1", stdout := "", stderr := "" }
          (Except.error "Unexpected end of JSON input"))).success = false :=
  (healing_success_iff_rerun_passed _ _ _ _ _ _).2 "Unexpected end of JSON input" rfl

/-- `jsRound` is round-half-up on the exact rational: `⌊q + 1/2⌋`. -/
theorem jsRound_eq_round_half (q : ℚ) : jsRound q = ⌊q + 1 / 2⌋ := by
  have hdz : q.den ≠ 0 := q.den_nz
  have hd2 : ((2 * q.den : ℕ) : ℚ) ≠ 0 := Nat.cast_ne_zero.mpr (by omega)
  have h1 : jsRound q = (2 * q.num + (q.den : ℤ)) / ((2 * q.den : ℕ) : ℤ) := by
    unfold jsRound
    rw [Int.fdiv_eq_ediv _ (by positivity)]
    norm_cast
  have h2 : (q + 1 / 2 : ℚ) =
      ((2 * q.num + (q.den : ℤ) : ℤ) : ℚ) / ((2 * q.den : ℕ) : ℚ) := by
    rw [eq_div_iff hd2]
    push_cast
    linear_combination (2 : ℚ) * Rat.mul_den_eq_num q
  rw [h2, Rat.floor_intCast_div_natCast, h1]

/-- Counterexample to C4: at 23 healed results out of 40, the summary's
success rate — `Math.round` of the binary64 evaluation of
`(23 / 40) * 100`, which is `57.49999999999999289…` — is 57, whereas
`round(100 * 23 / 40) = round(57.5) = 58`; the reported rate is not the
exact rounding the claim states. -/
theorem success_rate_exact_round_fails :
    (generateHealingSummary
        (List.replicate 23
            ({ testId := "VAL-201", success := true, finalStatus := "passed" } : HealingResult) ++
          List.replicate 17
            { testId := "VAL-202", success := false, finalStatus := "failed" })).healed = 23 ∧
    (List.replicate 23
        ({ testId := "VAL-201", success := true, finalStatus := "passed" } : HealingResult) ++
      List.replicate 17
        ({ testId := "VAL-202", success := false, finalStatus := "failed" } : HealingResult)).length
      = 40 ∧
    (generateHealingSummary
        (List.replicate 23
            ({ testId := "VAL-201", success := true, finalStatus := "passed" } : HealingResult) ++
          List.replicate 17
            { testId := "VAL-202", success := false, finalStatus := "failed" })).successRate = 57 ∧
    jsRound ((100 * 23 : ℚ) / 40) = 58 ∧
    (generateHealingSummary
        (List.replicate 23
            ({ testId := "VAL-201", success := true, finalStatus := "passed" } : HealingResult) ++
          List.replicate 17
            { testId := "VAL-202", success := false, finalStatus := "failed" })).successRate ≠
      jsRound ((100 * 23 : ℚ) / 40) := by
  have hdiv : ((100 * 23 : ℚ) / 40) = Rat.divInt 2300 40 := by
    rw [Rat.divInt_eq_div]
    norm_num
  have h4 : jsRound ((100 * 23 : ℚ) / 40) = 58 := by
    rw [hdiv]
    decide
  refine ⟨by decide, by decide, by decide, h4, ?_⟩
  rw [h4]
  decide

/-- C4 (amended): over a non-empty batch of N healing results the summary's
healed and still-failing counts sum to N and the healed count is the number
of results with `success = true`; the reported success rate is `Math.round`
of the double-precision (binary64) evaluation of `(healed / N) * 100`,
which can land on the other side of a half-integer from the exact rational
value — at 23 healed of 40 the program reports 57 although exact rounding
gives 58 — while agreeing with the exact rounding where the double
computation is exact, as at 1 healed of 8. -/
theorem healing_summary_counts_and_float_rate :
    (∀ rs : List HealingResult, rs ≠ [] →
      (generateHealingSummary rs).healed + (generateHealingSummary rs).stillFailing
          = rs.length ∧
      (generateHealingSummary rs).healed = (rs.filter (fun r => r.success)).length) ∧
    (generateHealingSummary
        (List.replicate 23
            ({ testId := "VAL-201", success := true, finalStatus := "passed" } : HealingResult) ++
          List.replicate 17
            { testId := "VAL-202", success := false, finalStatus := "failed" })).successRate = 57 ∧
    jsRound ((100 * 23 : ℚ) / 40) = 58 ∧
    (generateHealingSummary
        (List.replicate 1
            ({ testId := "VAL-201", success := true, finalStatus := "passed" } : HealingResult) ++
          List.replicate 7
            { testId := "VAL-202", success := false, finalStatus := "failed" })).successRate = 13 ∧
    jsRound ((100 * 1 : ℚ) / 8) = 13 := by
  have h40 : jsRound ((100 * 23 : ℚ) / 40) = 58 := by
    rw [show ((100 * 23 : ℚ) / 40) = Rat.divInt 2300 40 by rw [Rat.divInt_eq_div]; norm_num]
    decide
  have h8 : jsRound ((100 * 1 : ℚ) / 8) = 13 := by
    rw [show ((100 * 1 : ℚ) / 8) = Rat.divInt 100 8 by rw [Rat.divInt_eq_div]; norm_num]
    decide
  refine ⟨?_, by decide, h40, by decide, h8⟩
  intro rs _
  have hle : (rs.filter (fun r => r.success)).length ≤ rs.length :=
    List.length_filter_le _ _
  constructor
  · simp only [generateHealingSummary]
    omega
  · rfl

/-- Witness for the amended C4 at a concrete singleton batch. -/
theorem healing_summary_counts_and_float_rate_witness :
    (([({ testId := "VAL-004", success := true, finalStatus := "passed" } : HealingResult)])
        ≠ []) ∧
    ((generateHealingSummary
        [({ testId := "VAL-004", success := true, finalStatus := "passed" } : HealingResult)]).healed +
      (generateHealingSummary
        [({ testId := "VAL-004", success := true, finalStatus := "passed" } : HealingResult)]).stillFailing
        = 1) :=
  ⟨by simp,
   (healing_summary_counts_and_float_rate.1
      [({ testId := "VAL-004", success := true, finalStatus := "passed" } : HealingResult)]
      (by simp)).1⟩

/-- Counterexample to C5: for an unclassifiable error (spec scenario 5) the
returned strategy is the Unknown default, whose fix list is empty — so not
every category's strategy has a non-empty ordered fix list. -/
theorem unknown_strategy_has_empty_fixes :
    (analyzeFailureAndCreateStrategy
        ({ testId := "VAL-005", title := "t",
           error := some "assertion failed: expected 1 to equal 2" } : FailedTest)
        { success := false, stdout := "", stderr := "", log := "",
          error := some "Command failed" }).type = "unknown" ∧
    (analyzeFailureAndCreateStrategy
        ({ testId := "VAL-005", title := "t",
           error := some "assertion failed: expected 1 to equal 2" } : FailedTest)
        { success := false, stdout := "", stderr := "", log := "",
          error := some "Command failed" }).fixes = [] := by
  decide

/-- C5 (amended): every returned strategy has a non-empty rationale, and
every strategy other than the Unknown default has a non-empty ordered fix
list; the Unknown default's fix list is empty. -/
theorem strategy_rationale_nonempty_fixes_except_unknown
    (ft : FailedTest) (dbg : DebugResult) :
    (analyzeFailureAndCreateStrategy ft dbg).reason ≠ "" ∧
    ((analyzeFailureAndCreateStrategy ft dbg).type ≠ "unknown" →
      (analyzeFailureAndCreateStrategy ft dbg).fixes ≠ []) := by
  rw [analyze_eq_catalog]
  cases classifySpec ft.error <;> decide

/-- Witness for the amended C5 at a concrete timeout failure. -/
theorem strategy_rationale_nonempty_fixes_except_unknown_witness :
    (analyzeFailureAndCreateStrategy
        ({ testId := "VAL-001", title := "t",
           error := some "Test timeout of 30000ms exceeded" } : FailedTest)
        { success := false, stdout := "", stderr := "", log := "",
          error := some "Command failed" }).reason ≠ "" ∧
    (analyzeFailureAndCreateStrategy
        ({ testId := "VAL-001", title := "t",
           error := some "Test timeout of 30000ms exceeded" } : FailedTest)
        { success := false, stdout := "", stderr := "", log := "",
          error := some "Command failed" }).fixes ≠ [] :=
  ⟨(strategy_rationale_nonempty_fixes_except_unknown _ _).1,
   (strategy_rationale_nonempty_fixes_except_unknown _ _).2 (by decide)⟩

/-- Counterexample to C6: re-applying the selector strategy duplicates the
`.first()` qualifier, so patched content is not a fixed point. -/
theorem selector_fix_duplicates_first_qualifier :
    applySelectorFixes "page.locator('a')" = "page.locator('a').first()" ∧
    applySelectorFixes (applySelectorFixes "page.locator('a')") =
      "page.locator('a').first().first()" ∧
    applySelectorFixes (applySelectorFixes "page.locator('a')") ≠
      applySelectorFixes "page.locator('a')" := by
  decide

/-- C6 (amended): re-application is idempotent only for the guarded
transformations (the timeout directive and `test.slow()` injections, for
all contents) and for the self-stable rewrites (exact-match qualifier and
navigation options, whose output no longer matches their pattern, shown on
representative contents); the `.first()` qualifier and the visibility-wait
are duplicated by re-application. -/
theorem patch_reapplication_partial_idempotence :
    (∀ c, applyTimeoutFixes (applyTimeoutFixes c) = applyTimeoutFixes c) ∧
    (∀ c, applyGeneralFixes (applyGeneralFixes c) = applyGeneralFixes c) ∧
    applySelectorFixes "getByText('Save')" = "getByText('Save', \x7b exact: true \x7d)" ∧
    applySelectorFixes "getByText('Save', \x7b exact: true \x7d)" =
      "getByText('Save', \x7b exact: true \x7d)" ∧
    applyNavigationFixes (applyNavigationFixes "page.goto('https://x.test/')") =
      applyNavigationFixes "page.goto('https://x.test/')" ∧
    applySelectorFixes (applySelectorFixes "page.locator('a')") ≠
      applySelectorFixes "page.locator('a')" ∧
    applyElementFixes (applyElementFixes "await page.a.click()") ≠
      applyElementFixes "await page.a.click()" := by
  refine ⟨applyTimeoutFixes_idem, applyGeneralFixes_idem, ?_, ?_, ?_, ?_, ?_⟩ <;> decide

/-- Counterexample to C7: with two test declarations in the content, the
timeout directive is injected before each of them, not before the first
only. -/
theorem timeout_fix_injects_at_every_declaration :
    applyTimeoutFixes "test(one)\ntest(two)" =
      "test.setTimeout(60000);\n  test(one)\ntest.setTimeout(60000);\n  test(two)" ∧
    applyTimeoutFixes "test(one)\ntest(two)" ≠
      "test.setTimeout(60000);\n  test(one)\ntest(two)" := by
  decide

/-- C7 (amended): `applyTimeoutFixes` injects nothing when a
`test.setTimeout` directive is already present, and otherwise injects the
directive before every occurrence of `test(` (every test declaration), as
witnessed on a two-declaration content. -/
theorem timeout_fix_guard_and_global_injection :
    (∀ c, jsIncludes c "test.setTimeout" = true → applyTimeoutFixes c = c) ∧
    applyTimeoutFixes "test(one)\ntest(two)" =
      "test.setTimeout(60000);\n  test(one)\ntest.setTimeout(60000);\n  test(two)" :=
  ⟨applyTimeoutFixes_of_present, by decide⟩

/-- Witness for the amended C7 at a content already carrying the directive. -/
theorem timeout_fix_guard_and_global_injection_witness :
    jsIncludes "test.setTimeout(90000);\n  test(x)" "test.setTimeout" = true ∧
    applyTimeoutFixes "test.setTimeout(90000);\n  test(x)" =
      "test.setTimeout(90000);\n  test(x)" :=
  ⟨by decide, timeout_fix_guard_and_global_injection.1 _ (by decide)⟩

/-- Counterexample to C8: the debug run produced a fresh error (a selector
ambiguity), yet classification follows the record's original timeout error;
the fresh text is never consulted. -/
theorem classification_ignores_fresh_error :
    (analyzeFailureAndCreateStrategy
        ({ testId := "VAL-002", title := "t",
           error := some "Test timeout of 30000ms exceeded" } : FailedTest)
        { success := false,
          stdout := "strict mode violation: locator resolved to 3 elements",
          stderr := "",
          log := "strict mode violation: locator resolved to 3 elements",
          error := some "Command failed" }) = timeoutStrategy ∧
    classifySpec (some "strict mode violation: locator resolved to 3 elements") =
      FailureCategory.selectorAmbiguity ∧
    timeoutStrategy ≠ selectorStrategy := by
  decide

/-- C8 (amended): classification always runs on the original record's error
message; the debug result is bound but never consulted, so the outcome is
invariant under every change of debug result. -/
theorem classification_uses_original_error_only
    (ft : FailedTest) (d d' : DebugResult) :
    analyzeFailureAndCreateStrategy ft d = analyzeFailureAndCreateStrategy ft d' ∧
    analyzeFailureAndCreateStrategy ft d = strategyFor (classifySpec ft.error) := by
  refine ⟨?_, analyze_eq_catalog ft d⟩
  rw [analyze_eq_catalog ft d, analyze_eq_catalog ft d']

/-- Counterexample to C9: the outcome produced on a structured-output parse
failure carries the status `failed` — the same status as an ordinary failed
verification — not a distinct Unparseable status. -/
theorem parse_failure_status_equals_ordinary_failed :
    (rerunSingleTest { error := some "Command failed", stdout := "", stderr := "" }
        (Except.error "Unexpected end of JSON input")).status = "failed" ∧
    (rerunSingleTest { error := some "Command failed", stdout := "report", stderr := "" }
        (Except.ok (⟨some [⟨some [⟨some [⟨some [⟨some "failed", some 5,
          some ⟨some "boom"⟩⟩]⟩]⟩]⟩]⟩ : PwDoc))).status = "failed" ∧
    (rerunSingleTest { error := some "Command failed", stdout := "", stderr := "" }
        (Except.error "Unexpected end of JSON input")).status =
      (rerunSingleTest { error := some "Command failed", stdout := "report", stderr := "" }
        (Except.ok (⟨some [⟨some [⟨some [⟨some [⟨some "failed", some 5,
          some ⟨some "boom"⟩⟩]⟩]⟩]⟩]⟩ : PwDoc))).status := by
  decide

/-- C9 (amended): on a structured-output parse failure `rerunSingleTest`
produces status `failed` (no distinct Unparseable marker), duration 0, the
parse error recorded in the outcome's error message behind the fixed
prefix, and `success = false` — the outcome counts as a failed
verification. -/
theorem parse_failure_outcome (execResult : ExecOutcome) (m : String) :
    rerunSingleTest execResult (Except.error m) =
      { status := "failed", duration := 0,
        error := some ("Failed to parse test results: " ++ m), success := false } :=
  rfl

/-- C10: both verification entry points resolve with a structured outcome
on every branch of the external invocation (any exec outcome, any parse
outcome); the possibly-throwing translations never take the exception
branch, and agree with the total outcome functions. -/
theorem verification_runners_always_resolve (execResult : ExecOutcome)
    (parsed : Except String PwDoc) :
    runPlaywrightDebugE execResult = Except.ok (runPlaywrightDebug execResult) ∧
    rerunSingleTestE execResult parsed = Except.ok (rerunSingleTest execResult parsed) := by
  refine ⟨rfl, ?_⟩
  cases parsed <;> rfl
